import Mathlib

/-!
Verification of `openstack/orchestration/v1/stack.py` (openstacksdk):
a shallow embedding of the `Stack` resource class and of the minimal
slice of its collaborators (`openstack.resource.Resource`,
`openstack.utils.urljoin`, the HTTP session) that its operations use.

The collaborators are not part of the reviewed source tree; they are
modelled from the specification's description of the generic
typed-resource mapping component (marked `Modelled from the spec:`).
Everything in the `Stack` namespace is translated directly from
`src/openstack/orchestration/v1/stack.py`.
-/

/-- A JSON-like wire value: the decoded documents exchanged with the
orchestration service. -/
inductive Value where
  | null
  | bool (b : Bool)
  | int (n : Int)
  | str (s : String)
  | list (xs : List Value)
  | obj (kvs : List (String × Value))

/-- Where a declared field travels on the wire (`resource.Body`,
`resource.URI`, `resource.Header`). -/
inductive Location where
  | body
  | uri
  | header
deriving DecidableEq, Repr

/-- Declared best-effort coercion of a field (`type=bool`, `type=list`,
`type=dict` in the source's field declarations). -/
inductive TypeTag where
  | tBool
  | tList
  | tDict
deriving DecidableEq, Repr

/-- Declarative description of one entity attribute: wire name, wire
location, optional type coercion. -/
structure FieldSpec where
  wireName : String
  location : Location
  coerce : Option TypeTag
deriving DecidableEq, Repr

/-- Schema-level metadata of a resource type: envelope keys, base path,
capability flags and the ordered field table. -/
structure ResourceSchema where
  entityKey : Option String
  collectionKey : Option String
  basePath : String
  nameAttribute : String
  allowCreate : Bool
  allowList : Bool
  allowFetch : Bool
  allowCommit : Bool
  allowDelete : Bool
  fields : List (String × FieldSpec)
deriving DecidableEq, Repr

/-- A runtime resource instance: attribute values, the dirty set of
locally mutated attribute names, and the bound identity (if any). -/
structure Entity where
  values : List (String × Value)
  dirty : List String
  id : Option String

/-- Errors of the component, following the spec's error taxonomy. -/
inductive Err where
  | PreconditionError
  | MissingURIParameter (placeholder : String)
  | TranslationError (attr : String)
  | TransportError (status : Nat)
  | NotFound (msg : String)
  | MethodNotSupported (op : String)
deriving DecidableEq, Repr

/-- HTTP method of an outgoing request. -/
inductive Method where
  | GET
  | POST
  | PUT
  | DELETE
deriving DecidableEq, Repr

/-- An outgoing wire request as produced by the request builder. -/
structure Request where
  method : Method
  url : String
  headers : List (String × String)
  body : Option Value

/-- A transport-level response: HTTP status plus decoded body. -/
structure Response where
  status : Nat
  body : Value

/-- The Session collaborator, abstracted as a pure request-to-response
function; auth, retries and endpoint resolution live behind it. -/
def Session : Type := Request → Response

/-- Outcome of one entity operation: the result (or error) together with
the list of requests that actually reached the Session collaborator. -/
structure OpResult (α : Type) where
  result : Except Err α
  requests : List Request

/-- Python's `str(x)` for an optional string, as used in `'%s' % x` and
path interpolation: `None` renders as the literal string `"None"`. -/
def pyStr : Option String → String
  | some s => s
  | none => "None"

/-- Modelled from the spec: `openstack.utils.urljoin` is not under the
reviewed sources; the spec describes operation paths as segments joined
by single `/` separators (`<basePath>/<id>/actions` and the like), so
joining strips redundant slashes at each joint. -/
def stripSlashesLeft (s : String) : String :=
  String.mk (s.toList.dropWhile (fun c => c == '/'))

/-- Strip trailing `/` characters from a path segment. -/
def stripSlashesRight (s : String) : String :=
  String.mk ((s.toList.reverse.dropWhile (fun c => c == '/')).reverse)

/-- Join one further segment onto a path with a single `/`. -/
def joinSeg (a b : String) : String :=
  stripSlashesRight a ++ "/" ++ stripSlashesLeft b

/-- Modelled from the spec: `openstack.utils.urljoin(base, *rest)`. -/
def urljoin (base : String) (rest : List String) : String :=
  rest.foldl joinSeg base

/-- Look a string-valued attribute up in an attribute map. -/
def lookupStr (m : List (String × Value)) (k : String) : Option String :=
  match m.lookup k with
  | some (Value.str s) => some s
  | _ => none

/-- Replace the binding of `k` in an attribute map, or append it. -/
def setVal (m : List (String × Value)) (k : String) (v : Value) :
    List (String × Value) :=
  if m.any (fun p => p.1 == k) then
    m.map (fun p => if p.1 == k then (k, v) else p)
  else
    m ++ [(k, v)]

/-- Modelled from the spec: the Translator's outbound direction.  For
each attribute whose field is Body-located, emit its wire name and value
into the body map, in attribute order; URI and Header fields are not part
of the body. -/
def toWireBody (schema : ResourceSchema) (vals : List (String × Value)) :
    List (String × Value) :=
  vals.filterMap (fun p =>
    match schema.fields.lookup p.1 with
    | some fs =>
      match fs.location with
      | Location.body => some (fs.wireName, p.2)
      | _ => none
    | none => none)

/-- Modelled from the spec: the Translator's outbound header map, from
Header-located fields bound to string values (none for Stack). -/
def headersOf (schema : ResourceSchema) (vals : List (String × Value)) :
    List (String × String) :=
  vals.filterMap (fun p =>
    match schema.fields.lookup p.1 with
    | some fs =>
      match fs.location, p.2 with
      | Location.header, Value.str s => some (fs.wireName, s)
      | _, _ => none
    | none => none)

/-- Modelled from the spec: if the schema's entity key is set and the
operation requests enveloping, wrap the body map under that key;
otherwise emit it unwrapped. -/
def envelope (schema : ResourceSchema) (prependKey : Bool)
    (bodyMap : List (String × Value)) : Value :=
  if prependKey then
    match schema.entityKey with
    | some k => Value.obj [(k, Value.obj bodyMap)]
    | none => Value.obj bodyMap
  else
    Value.obj bodyMap

/-- Modelled from the spec: best-effort inbound coercion for a declared
type tag; a value of the wrong shape is a translation failure. -/
def coerceIn (tag : Option TypeTag) (v : Value) : Option Value :=
  match tag, v with
  | none, _ => some v
  | some _, Value.null => some Value.null
  | some TypeTag.tBool, Value.bool b => some (Value.bool b)
  | some TypeTag.tList, Value.list xs => some (Value.list xs)
  | some TypeTag.tDict, Value.obj kvs => some (Value.obj kvs)
  | some _, _ => none

/-- Find the attribute whose Body-located field has the given wire name. -/
def findBodyField (schema : ResourceSchema) (wk : String) :
    Option (String × FieldSpec) :=
  schema.fields.find? (fun p =>
    p.2.wireName == wk && p.2.location == Location.body)

/-- Modelled from the spec: map each known wire key of a decoded body back
to its attribute name, applying the declared coercion; unknown wire keys
are ignored (forward compatibility); a coercion failure is a
`TranslationError` naming the attribute. -/
def mapWireKeys (schema : ResourceSchema) :
    List (String × Value) → Except Err (List (String × Value))
  | [] => Except.ok []
  | (wk, v) :: rest =>
    match findBodyField schema wk with
    | some (attr, fs) =>
      match coerceIn fs.coerce v with
      | some v' => (mapWireKeys schema rest).map (fun tl => (attr, v') :: tl)
      | none => Except.error (Err.TranslationError attr)
    | none => mapWireKeys schema rest

/-- Modelled from the spec: the Translator's inbound direction.  Unwrap
the entity key when the document carries it, then translate each known
wire key to its attribute. -/
def fromWire (schema : ResourceSchema) (doc : Value) :
    Except Err (List (String × Value)) :=
  let inner :=
    match doc, schema.entityKey with
    | Value.obj kvs, some k =>
      match kvs.lookup k with
      | some v => v
      | none => doc
    | _, _ => doc
  match inner with
  | Value.obj kvs => mapWireKeys schema kvs
  | _ => Except.ok []

/-- Merge translated response attributes into an entity: update `values`,
clear the dirty set, and (re)bind the identity from the response's id
attribute when present. -/
def applyAttrs (e : Entity) (attrs : List (String × Value)) : Entity :=
  { values := attrs.foldl (fun m kv => setVal m kv.1 kv.2) e.values
    dirty := []
    id :=
      match lookupStr attrs "id" with
      | some i => some i
      | none => e.id }

/-- Transport success per the spec: any 2xx status. -/
def is2xx (status : Nat) : Bool :=
  200 ≤ status && status < 300

/-- Modelled from the spec: the generic `Resource._translate_response` of
`openstack/resource.py`, which is not under the reviewed sources.  A
non-2xx response surfaces as a transport error; with `hasBody` the body
is translated through `fromWire` and merged, clearing the dirty set;
without it the entity is returned as-is. -/
def translateResponse (schema : ResourceSchema) (e : Entity)
    (resp : Response) (hasBody : Bool) : Except Err Entity :=
  if is2xx resp.status then
    if hasBody then
      (fromWire schema resp.body).map (applyAttrs e)
    else
      Except.ok e
  else
    Except.error (Err.TransportError resp.status)

/-- The restriction of an entity's values to its dirty attribute names:
the payload of a partial update. -/
def dirtyValues (e : Entity) : List (String × Value) :=
  e.values.filter (fun p => e.dirty.contains p.1)

/-- A request as assembled by `Resource._prepare_request`: url, headers
and serialized body, before the HTTP verb is chosen by the caller. -/
structure Prepared where
  url : String
  headers : List (String × String)
  body : Value

/-- Modelled from the spec: the generic `Resource._prepare_request` of
`openstack/resource.py` (not under the reviewed sources), as used by an
identity-requiring update: it needs a bound id (else a precondition
error, before any network call), targets `<base or default path>/<id>`,
and serializes the dirty attributes, enveloped when requested. -/
def prepareRequest (schema : ResourceSchema) (e : Entity)
    (prependKey : Bool) (basePath : Option String) : Except Err Prepared :=
  match e.id with
  | none => Except.error Err.PreconditionError
  | some i =>
    let bp :=
      match basePath with
      | some p => p
      | none => schema.basePath
    Except.ok
      { url := urljoin bp [i]
        headers := headersOf schema e.values
        body := envelope schema prependKey (toWireBody schema (dirtyValues e)) }

/-- Modelled from the spec: the generic `Resource.create` of
`openstack/resource.py` (not under the reviewed sources): requires the
Create capability, POSTs the translated values (enveloped only when
`prependKey`) to the base path, and translates the response into the
entity. -/
def Resource.create (schema : ResourceSchema) (e : Entity) (sess : Session)
    (prependKey : Bool) (basePath : Option String) : OpResult Entity :=
  if schema.allowCreate then
    let bp :=
      match basePath with
      | some p => p
      | none => schema.basePath
    let req : Request :=
      { method := Method.POST
        url := bp
        headers := headersOf schema e.values
        body := some (envelope schema prependKey (toWireBody schema e.values)) }
    let resp := sess req
    { result := translateResponse schema e resp true, requests := [req] }
  else
    { result := Except.error (Err.MethodNotSupported "create"), requests := [] }

/-- Modelled from the spec: the generic `Resource.fetch` of
`openstack/resource.py` (not under the reviewed sources): requires the
Fetch capability and (unless the caller opts out) a bound id — failing
with a precondition error before any network call — then GETs
`<base or default path>/<id>` and translates the response body. -/
def Resource.fetch (schema : ResourceSchema) (e : Entity) (sess : Session)
    (requiresId : Bool) (basePath : Option String) : OpResult Entity :=
  if schema.allowFetch then
    if requiresId && e.id.isNone then
      { result := Except.error Err.PreconditionError, requests := [] }
    else
      let bp :=
        match basePath with
        | some p => p
        | none => schema.basePath
      let url := if requiresId then urljoin bp [pyStr e.id] else bp
      let req : Request :=
        { method := Method.GET, url := url, headers := [], body := none }
      let resp := sess req
      { result := translateResponse schema e resp true, requests := [req] }
  else
    { result := Except.error (Err.MethodNotSupported "fetch"), requests := [] }

/-- Modelled from the spec: the generic `Resource.commit` of
`openstack/resource.py` (not under the reviewed sources): requires the
Commit capability and a bound id (precondition error before any network
call), PUTs the dirty attributes (enveloped only when `prependKey`) to
`<base or default path>/<id>`, and translates the response only when the
operation carries a body. -/
def Resource.commit (schema : ResourceSchema) (e : Entity) (sess : Session)
    (prependKey : Bool) (hasBody : Bool) (basePath : Option String) :
    OpResult Entity :=
  if schema.allowCommit then
    match prepareRequest schema e prependKey basePath with
    | Except.error err => { result := Except.error err, requests := [] }
    | Except.ok pr =>
      let req : Request :=
        { method := Method.PUT
          url := pr.url
          headers := pr.headers
          body := some pr.body }
      let resp := sess req
      { result := translateResponse schema e resp hasBody, requests := [req] }
  else
    { result := Except.error (Err.MethodNotSupported "commit"), requests := [] }

/-- Modelled from the spec: the generic `Resource.delete` of
`openstack/resource.py` (not under the reviewed sources): requires the
Delete capability and a bound id (precondition error before any network
call), then issues a bodiless DELETE to `<basePath>/<id>`. -/
def Resource.delete (schema : ResourceSchema) (e : Entity) (sess : Session) :
    OpResult Entity :=
  if schema.allowDelete then
    match e.id with
    | none => { result := Except.error Err.PreconditionError, requests := [] }
    | some i =>
      let req : Request :=
        { method := Method.DELETE
          url := urljoin schema.basePath [i]
          headers := []
          body := none }
      let resp := sess req
      { result := translateResponse schema e resp false, requests := [req] }
  else
    { result := Except.error (Err.MethodNotSupported "delete"), requests := [] }

/-- The `Stack` schema, translated from the class-level declarations of
`src/openstack/orchestration/v1/stack.py`: `resource_key = 'stack'`,
`resources_key = 'stacks'`, `base_path = '/stacks'`,
`name_attribute = 'stack_name'`, all five capability flags, and the
declarative field table (the `id` field is inherited from the generic
base resource, per the spec's designated identity attribute). -/
def Stack.schema : ResourceSchema :=
  { entityKey := some "stack"
    collectionKey := some "stacks"
    basePath := "/stacks"
    nameAttribute := "stack_name"
    allowCreate := true
    allowList := true
    allowFetch := true
    allowCommit := true
    allowDelete := true
    fields :=
      [ ("id", ⟨"id", Location.body, none⟩)
      , ("added", ⟨"added", Location.body, none⟩)
      , ("capabilities", ⟨"capabilities", Location.body, none⟩)
      , ("created_at", ⟨"creation_time", Location.body, none⟩)
      , ("description", ⟨"description", Location.body, none⟩)
      , ("deleted", ⟨"deleted", Location.body, some TypeTag.tList⟩)
      , ("is_rollback_disabled", ⟨"disable_rollback", Location.body, some TypeTag.tBool⟩)
      , ("links", ⟨"links", Location.body, none⟩)
      , ("name", ⟨"stack_name", Location.body, none⟩)
      , ("stack_name", ⟨"stack_name", Location.uri, none⟩)
      , ("notification_topics", ⟨"notification_topics", Location.body, none⟩)
      , ("outputs", ⟨"outputs", Location.body, none⟩)
      , ("owner_id", ⟨"stack_owner", Location.body, none⟩)
      , ("parameters", ⟨"parameters", Location.body, some TypeTag.tDict⟩)
      , ("parent_id", ⟨"parent", Location.body, none⟩)
      , ("replaced", ⟨"replaced", Location.body, none⟩)
      , ("status", ⟨"stack_status", Location.body, none⟩)
      , ("status_reason", ⟨"stack_status_reason", Location.body, none⟩)
      , ("tags", ⟨"tags", Location.body, none⟩)
      , ("template", ⟨"template", Location.body, some TypeTag.tDict⟩)
      , ("template_description", ⟨"template_description", Location.body, none⟩)
      , ("template_url", ⟨"template_url", Location.body, none⟩)
      , ("timeout_mins", ⟨"timeout_mins", Location.body, none⟩)
      , ("unchanged", ⟨"unchanged", Location.body, none⟩)
      , ("updated", ⟨"updated", Location.body, none⟩)
      , ("updated_at", ⟨"updated_time", Location.body, none⟩)
      , ("user_project_id", ⟨"stack_user_project_id", Location.body, none⟩)
      ] }

/-- The entity's `name` attribute value (`self.name`, the Body field
wired to `stack_name`), when bound to a string. -/
def nameVal (e : Entity) : Option String :=
  lookupStr e.values "name"

/-- The entity's `status` attribute value (`self.status`, the Body field
wired to `stack_status`), when bound to a string. -/
def statusOf (e : Entity) : Option String :=
  lookupStr e.values "status"

/-- `Stack.create` (stack.py lines 93-97): delegates to the generic
create with `prepend_key=False` — heat does not accept the resource key
in its request — while forwarding the caller's `base_path`. -/
def Stack.create (e : Entity) (sess : Session) (basePath : Option String) :
    OpResult Entity :=
  Resource.create Stack.schema e sess false basePath

/-- `Stack.commit` (stack.py lines 99-103): delegates to the generic
commit with `prepend_key=False` and `has_body=False`; note that the
source passes the literal `base_path=None` rather than the caller's
`base_path` argument. -/
def Stack.commit (e : Entity) (sess : Session) (basePath : Option String) :
    OpResult Entity :=
  Resource.commit Stack.schema e sess false false none

/-- The interpolated update base path of stack.py line 110:
`'/stacks/%(stack_name)s/' % {'stack_name': self.name}`. -/
def updateBasePath (e : Entity) : String :=
  "/stacks/" ++ pyStr (nameVal e) ++ "/"

/-- `Stack.update` (stack.py lines 105-124): prepares an unenveloped
request against `/stacks/<name>/` (the id segment is appended by the
request preparation), appends a `preview` segment to the URL when
`preview` is set, PUTs the request, and translates the response body
into the entity, returning the entity itself. -/
def Stack.update (e : Entity) (sess : Session) (preview : Bool) :
    OpResult Entity :=
  match prepareRequest Stack.schema e false (some (updateBasePath e)) with
  | Except.error err => { result := Except.error err, requests := [] }
  | Except.ok pr =>
    let requestUrl := if preview then urljoin pr.url ["preview"] else pr.url
    let req : Request :=
      { method := Method.PUT
        url := requestUrl
        headers := pr.headers
        body := some pr.body }
    let resp := sess req
    { result := translateResponse Stack.schema e resp true, requests := [req] }

/-- `Stack._action` (stack.py lines 126-130): POST the caller's payload
verbatim to `<base_path>/<id>/actions` and hand back the decoded
response document untranslated. -/
def Stack._action (e : Entity) (sess : Session) (body : Value) :
    OpResult Value :=
  let req : Request :=
    { method := Method.POST
      url := urljoin Stack.schema.basePath [pyStr e.id, "actions"]
      headers := []
      body := some body }
  { result := Except.ok (sess req).body, requests := [req] }

/-- `Stack.check` (stack.py lines 132-133): the check action with its
fixed payload `{'check': ''}`. -/
def Stack.check (e : Entity) (sess : Session) : OpResult Value :=
  Stack._action e sess (Value.obj [("check", Value.str "")])

/-- `Stack.abandon` (stack.py lines 135-139): DELETE against
`<base_path>/<name>/<id>/abandon` and hand back the decoded response
document untranslated. -/
def Stack.abandon (e : Entity) (sess : Session) : OpResult Value :=
  let req : Request :=
    { method := Method.DELETE
      url := urljoin Stack.schema.basePath [pyStr (nameVal e), pyStr e.id, "abandon"]
      headers := []
      body := none }
  { result := Except.ok (sess req).body, requests := [req] }

/-- `Stack.fetch` (stack.py lines 141-151): delegate to the generic
fetch, then post-filter: a fetched stack whose status is
`DELETE_COMPLETE` or `ADOPT_COMPLETE` is reported as not found even
though the transport call succeeded. -/
def Stack.fetch (e : Entity) (sess : Session) (requiresId : Bool)
    (basePath : Option String) : OpResult Entity :=
  let r := Resource.fetch Stack.schema e sess requiresId basePath
  match r.result with
  | Except.ok stk =>
    if statusOf stk = some "DELETE_COMPLETE" ∨ statusOf stk = some "ADOPT_COMPLETE" then
      { result := Except.error (Err.NotFound ("No stack found for " ++ pyStr stk.id))
        requests := r.requests }
    else
      { result := Except.ok stk, requests := r.requests }
  | Except.error err => { result := Except.error err, requests := r.requests }

/-- `Stack.delete`: not overridden in stack.py; the inherited generic
delete applies. -/
def Stack.delete (e : Entity) (sess : Session) : OpResult Entity :=
  Resource.delete Stack.schema e sess

/-- `StackPreview = Stack` (stack.py line 154): a second registered name
for the very same entity type, sharing the schema value. -/
def StackPreview.schema : ResourceSchema := Stack.schema

/-- `StackPreview.create`, via the alias. -/
def StackPreview.create : Entity → Session → Option String → OpResult Entity :=
  Stack.create

/-- `StackPreview.commit`, via the alias. -/
def StackPreview.commit : Entity → Session → Option String → OpResult Entity :=
  Stack.commit

/-- `StackPreview.update`, via the alias. -/
def StackPreview.update : Entity → Session → Bool → OpResult Entity :=
  Stack.update

/-- `StackPreview._action`, via the alias. -/
def StackPreview._action : Entity → Session → Value → OpResult Value :=
  Stack._action

/-- `StackPreview.check`, via the alias. -/
def StackPreview.check : Entity → Session → OpResult Value :=
  Stack.check

/-- `StackPreview.abandon`, via the alias. -/
def StackPreview.abandon : Entity → Session → OpResult Value :=
  Stack.abandon

/-- `StackPreview.fetch`, via the alias. -/
def StackPreview.fetch : Entity → Session → Bool → Option String → OpResult Entity :=
  Stack.fetch

/-- `StackPreview.delete`, via the alias. -/
def StackPreview.delete : Entity → Session → OpResult Entity :=
  Stack.delete

/-- On a body-carrying response, a successful translation always yields
an entity with an empty dirty set (the merge clears it). -/
theorem translateResponse_ok_dirty (schema : ResourceSchema) (e : Entity)
    (resp : Response) (stk : Entity)
    (h : translateResponse schema e resp true = Except.ok stk) :
    stk.dirty = [] := by
  unfold translateResponse at h
  by_cases h2 : is2xx resp.status
  · rw [if_pos h2, if_pos rfl] at h
    cases hfw : fromWire schema resp.body with
    | ok attrs =>
      rw [hfw] at h
      cases h
      rfl
    | error err =>
      rw [hfw] at h
      cases h
  · rw [if_neg h2] at h
    cases h

/-- Fixture: an empty stack entity bound to identity `ID1`. -/
def eC1 : Entity := { values := [], dirty := [], id := some "ID1" }

/-- Fixture: a transport that answers HTTP 200 with an enveloped body
whose stack status is the deletion-terminal value. -/
def sessC1 : Session := fun _ =>
  { status := 200
    body := Value.obj [("stack", Value.obj
      [("stack_status", Value.str "DELETE_COMPLETE"), ("id", Value.str "ID1")])] }

/-- Fixture: the entity the generic fetch translates out of `sessC1`. -/
def stkC1 : Entity :=
  { values := [("status", Value.str "DELETE_COMPLETE"), ("id", Value.str "ID1")]
    dirty := []
    id := some "ID1" }

/-- C1: whenever the generic (transport-level) fetch succeeds and yields a
translated entity, `Stack.fetch` raises `NotFound` exactly when that
entity's status is `DELETE_COMPLETE` or `ADOPT_COMPLETE`, and otherwise
returns the fetched entity unchanged. -/
theorem C1_fetch_terminal_status (e : Entity) (sess : Session) (stk : Entity)
    (h : (Resource.fetch Stack.schema e sess true none).result = Except.ok stk) :
    (Stack.fetch e sess true none).result =
      (if statusOf stk = some "DELETE_COMPLETE" ∨ statusOf stk = some "ADOPT_COMPLETE"
       then Except.error (Err.NotFound ("No stack found for " ++ pyStr stk.id))
       else Except.ok stk) := by
  by_cases hc : statusOf stk = some "DELETE_COMPLETE" ∨ statusOf stk = some "ADOPT_COMPLETE"
  · simp [Stack.fetch, h, hc]
  · simp [Stack.fetch, h, hc]

/-- C1 witness: the generic fetch against `sessC1` succeeds with
`stkC1`, whose deletion-terminal status makes `Stack.fetch` report
`NotFound` despite the HTTP 200. -/
theorem C1_fetch_terminal_status_witness :
    (Resource.fetch Stack.schema eC1 sessC1 true none).result = Except.ok stkC1 ∧
    (Stack.fetch eC1 sessC1 true none).result =
      (if statusOf stkC1 = some "DELETE_COMPLETE" ∨ statusOf stkC1 = some "ADOPT_COMPLETE"
       then Except.error (Err.NotFound ("No stack found for " ++ pyStr stkC1.id))
       else Except.ok stkC1) :=
  ⟨rfl, C1_fetch_terminal_status eC1 sessC1 stkC1 rfl⟩

/-- Fixture: a stack entity named `s2`, identity `ID2`, with a locally
mutated (dirty) description. -/
def eC2 : Entity :=
  { values := [("name", Value.str "s2"), ("description", Value.str "old")]
    dirty := ["description"]
    id := some "ID2" }

/-- Fixture: a transport answering HTTP 200 with an enveloped body that
carries a new description. -/
def sessC2 : Session := fun _ =>
  { status := 200
    body := Value.obj [("stack", Value.obj [("description", Value.str "new")])] }

/-- Fixture: the entity state after `Stack.update` against `sessC2`. -/
def stkC2 : Entity :=
  { values := [("name", Value.str "s2"), ("description", Value.str "new")]
    dirty := []
    id := some "ID2" }

/-- Fixture: the prepared update request for `eC2`. -/
def prC2 : Prepared :=
  { url := "/stacks/s2/ID2"
    headers := []
    body := Value.obj [("description", Value.str "old")] }

/-- C2 counterexample: a preview update does NOT leave the entity alone.
Starting from a dirty description `old`, `Stack.update` with
`preview=true` returns the entity itself (not just the response
document) with the dirty set cleared and the stored description mutated
to the server's `new`. -/
theorem C2_preview_counterexample :
    eC2.dirty = ["description"] ∧
    lookupStr eC2.values "description" = some "old" ∧
    (Stack.update eC2 sessC2 true).result = Except.ok stkC2 ∧
    stkC2.dirty = [] ∧
    lookupStr stkC2.values "description" = some "new" :=
  ⟨rfl, rfl, rfl, rfl, rfl⟩

/-- C2 (amended): with `preview=true` the update targets the path with a
`preview` segment appended after the identity segment and carries the
same prepared headers and body as a normal update; but the response is
then translated into the entity exactly as in a non-preview update — on
success the dirty set is cleared and stored values are updated — and the
updated entity, not the raw response document, is returned. -/
theorem C2_preview_update (e : Entity) (sess : Session) (pr : Prepared)
    (h : prepareRequest Stack.schema e false (some (updateBasePath e)) = Except.ok pr) :
    (Stack.update e sess true).requests =
      [{ method := Method.PUT, url := urljoin pr.url ["preview"],
         headers := pr.headers, body := some pr.body }] ∧
    (Stack.update e sess true).result =
      translateResponse Stack.schema e
        (sess { method := Method.PUT, url := urljoin pr.url ["preview"],
                headers := pr.headers, body := some pr.body }) true ∧
    (∀ stk, (Stack.update e sess true).result = Except.ok stk → stk.dirty = []) := by
  refine ⟨?_, ?_, ?_⟩
  · simp [Stack.update, h]
  · simp [Stack.update, h]
  · intro stk hstk
    simp only [Stack.update, h] at hstk
    exact translateResponse_ok_dirty Stack.schema e _ stk hstk

/-- C2 witness: the amended statement at the concrete fixtures. -/
theorem C2_preview_update_witness :
    prepareRequest Stack.schema eC2 false (some (updateBasePath eC2)) = Except.ok prC2 ∧
    ((Stack.update eC2 sessC2 true).requests =
      [{ method := Method.PUT, url := urljoin prC2.url ["preview"],
         headers := prC2.headers, body := some prC2.body }] ∧
    (Stack.update eC2 sessC2 true).result =
      translateResponse Stack.schema eC2
        (sessC2 { method := Method.PUT, url := urljoin prC2.url ["preview"],
                  headers := prC2.headers, body := some prC2.body }) true ∧
    (∀ stk, (Stack.update eC2 sessC2 true).result = Except.ok stk → stk.dirty = [])) :=
  ⟨rfl, C2_preview_update eC2 sessC2 prC2 rfl⟩

/-- C10: for one fixed entity and session, the preview and non-preview
update runs issue requests with the same method (PUT), the same headers
and the same body; the only difference is the URL, which gains a
trailing `preview` segment. -/
theorem C10_preview_only_url (e : Entity) (sess : Session) (pr : Prepared)
    (h : prepareRequest Stack.schema e false (some (updateBasePath e)) = Except.ok pr) :
    (Stack.update e sess false).requests =
      [{ method := Method.PUT, url := pr.url,
         headers := pr.headers, body := some pr.body }] ∧
    (Stack.update e sess true).requests =
      [{ method := Method.PUT, url := urljoin pr.url ["preview"],
         headers := pr.headers, body := some pr.body }] := by
  constructor
  · simp [Stack.update, h]
  · simp [Stack.update, h]

/-- C10 witness: both runs at the concrete fixtures. -/
theorem C10_preview_only_url_witness :
    prepareRequest Stack.schema eC2 false (some (updateBasePath eC2)) = Except.ok prC2 ∧
    ((Stack.update eC2 sessC2 false).requests =
      [{ method := Method.PUT, url := prC2.url,
         headers := prC2.headers, body := some prC2.body }] ∧
    (Stack.update eC2 sessC2 true).requests =
      [{ method := Method.PUT, url := urljoin prC2.url ["preview"],
         headers := prC2.headers, body := some prC2.body }]) :=
  ⟨rfl, C10_preview_only_url eC2 sessC2 prC2 rfl⟩

/-- Fixture: a clean stack entity bound to identity `ID3`. -/
def eC3 : Entity := { values := [], dirty := [], id := some "ID3" }

/-- Fixture: a transport answering HTTP 200 with an empty document. -/
def sessC3 : Session := fun _ => { status := 200, body := Value.obj [] }

/-- C3: `Stack.commit` does not honor a caller-supplied `base_path`.
Called with `base_path = "/alt"`, it still targets the schema default
`/stacks/ID3`, because the source passes the literal `base_path=None` to
the generic commit; the generic commit itself, given `/alt` directly,
does target `/alt/ID3` — so the override is a first-class variation
point of the builder that the `Stack.commit` wrapper drops. -/
theorem C3_commit_base_path_ignored :
    (Stack.commit eC3 sessC3 (some "/alt")).requests =
      [{ method := Method.PUT, url := "/stacks/ID3", headers := [],
         body := some (Value.obj []) }] ∧
    (Resource.commit Stack.schema eC3 sessC3 false false (some "/alt")).requests =
      [{ method := Method.PUT, url := "/alt/ID3", headers := [],
         body := some (Value.obj []) }] :=
  ⟨rfl, rfl⟩

/-- C4: the Stack schema sets the entity key `stack`, yet `Stack.create`
sends an unwrapped body (envelope suppressed via `prepend_key=False`),
while the generic create without suppression wraps the same body map
under `stack`. -/
theorem C4_create_envelope (e : Entity) (sess : Session) (basePath : Option String) :
    Stack.schema.entityKey = some "stack" ∧
    (Stack.create e sess basePath).requests.map Request.body =
      [some (Value.obj (toWireBody Stack.schema e.values))] ∧
    (Resource.create Stack.schema e sess true basePath).requests.map Request.body =
      [some (Value.obj [("stack", Value.obj (toWireBody Stack.schema e.values))])] :=
  ⟨rfl, rfl, rfl⟩

/-- The request `Stack._action` builds for a bound identity. -/
def actionRequest (i : String) (body : Value) : Request :=
  { method := Method.POST
    url := urljoin Stack.schema.basePath [i, "actions"]
    headers := []
    body := some body }

/-- C5: with a bound identity, `Stack._action` POSTs the caller's
payload verbatim to `<basePath>/<id>/actions` and returns the raw
decoded response document, with no attribute translation applied. -/
theorem C5_action_verbatim (e : Entity) (sess : Session) (body : Value)
    (i : String) (h : e.id = some i) :
    (Stack._action e sess body).requests = [actionRequest i body] ∧
    (Stack._action e sess body).result =
      Except.ok (sess (actionRequest i body)).body := by
  constructor
  · simp [Stack._action, actionRequest, h, pyStr]
  · simp [Stack._action, actionRequest, h, pyStr]

/-- Fixture: a clean stack entity bound to identity `ID5`. -/
def eC5 : Entity := { values := [], dirty := [], id := some "ID5" }

/-- Fixture: a transport answering a small document. -/
def sessC5 : Session := fun _ =>
  { status := 200, body := Value.obj [("outcome", Value.str "started")] }

/-- C5 witness: the action request and raw result at concrete fixtures. -/
theorem C5_action_verbatim_witness :
    eC5.id = some "ID5" ∧
    ((Stack._action eC5 sessC5 (Value.obj [("resume", Value.null)])).requests =
      [actionRequest "ID5" (Value.obj [("resume", Value.null)])] ∧
    (Stack._action eC5 sessC5 (Value.obj [("resume", Value.null)])).result =
      Except.ok (sessC5 (actionRequest "ID5" (Value.obj [("resume", Value.null)]))).body) :=
  ⟨rfl, C5_action_verbatim eC5 sessC5 (Value.obj [("resume", Value.null)]) "ID5" rfl⟩

/-- The request `Stack.abandon` builds for a bound name and identity. -/
def abandonRequest (n i : String) : Request :=
  { method := Method.DELETE
    url := urljoin Stack.schema.basePath [n, i, "abandon"]
    headers := []
    body := none }

/-- C6: with the name and identity bound, `Stack.abandon` builds its
request against `<basePath>/<name>/<id>/abandon` — the name segment
preceding the identity segment, unlike the `<id>/actions` shape — and
returns the raw decoded response document. -/
theorem C6_abandon_path (e : Entity) (sess : Session) (n i : String)
    (hn : nameVal e = some n) (hi : e.id = some i) :
    (Stack.abandon e sess).requests = [abandonRequest n i] ∧
    (Stack.abandon e sess).result =
      Except.ok (sess (abandonRequest n i)).body := by
  constructor
  · simp [Stack.abandon, abandonRequest, hn, hi, pyStr]
  · simp [Stack.abandon, abandonRequest, hn, hi, pyStr]

/-- Fixture: a stack entity named `s6` bound to identity `ID6`. -/
def eC6 : Entity :=
  { values := [("name", Value.str "s6")], dirty := [], id := some "ID6" }

/-- C6 witness: the abandon request and raw result at concrete fixtures. -/
theorem C6_abandon_path_witness :
    nameVal eC6 = some "s6" ∧ eC6.id = some "ID6" ∧
    ((Stack.abandon eC6 sessC5).requests = [abandonRequest "s6" "ID6"] ∧
    (Stack.abandon eC6 sessC5).result =
      Except.ok (sessC5 (abandonRequest "s6" "ID6")).body) :=
  ⟨rfl, rfl, C6_abandon_path eC6 sessC5 "s6" "ID6" rfl rfl⟩

/-- C7: on an entity with no bound identity, identity-requiring fetch,
commit and delete all fail with a precondition error and issue no
request at all — the Session collaborator is never reached. -/
theorem C7_missing_id (e : Entity) (sess : Session)
    (bp1 bp2 : Option String) (h : e.id = none) :
    Stack.fetch e sess true bp1 =
      { result := Except.error Err.PreconditionError, requests := [] } ∧
    Stack.commit e sess bp2 =
      { result := Except.error Err.PreconditionError, requests := [] } ∧
    Stack.delete e sess =
      { result := Except.error Err.PreconditionError, requests := [] } := by
  refine ⟨?_, ?_, ?_⟩
  · simp [Stack.fetch, Resource.fetch, Stack.schema, h]
  · simp [Stack.commit, Resource.commit, prepareRequest, Stack.schema, h]
  · simp [Stack.delete, Resource.delete, Stack.schema, h]

/-- Fixture: a stack entity with no identity bound. -/
def eC7 : Entity := { values := [], dirty := [], id := none }

/-- C7 witness: all three operations at the concrete identity-less
fixture. -/
theorem C7_missing_id_witness :
    eC7.id = none ∧
    (Stack.fetch eC7 sessC3 true none =
      { result := Except.error Err.PreconditionError, requests := [] } ∧
    Stack.commit eC7 sessC3 none =
      { result := Except.error Err.PreconditionError, requests := [] } ∧
    Stack.delete eC7 sessC3 =
      { result := Except.error Err.PreconditionError, requests := [] }) :=
  ⟨rfl, C7_missing_id eC7 sessC3 none none rfl⟩

/-- C8: `StackPreview = Stack`: the two registered names share one
schema value and every operation of the one is the very same function as
the operation of the other — identical behavior on every input state,
session and argument. -/
theorem C8_stack_preview_alias :
    StackPreview.schema = Stack.schema ∧
    StackPreview.create = Stack.create ∧
    StackPreview.fetch = Stack.fetch ∧
    StackPreview.commit = Stack.commit ∧
    StackPreview.update = Stack.update ∧
    StackPreview.delete = Stack.delete ∧
    StackPreview._action = Stack._action ∧
    StackPreview.check = Stack.check ∧
    StackPreview.abandon = Stack.abandon :=
  ⟨rfl, rfl, rfl, rfl, rfl, rfl, rfl, rfl, rfl⟩

/-- C9: `Stack.check` always delegates to the action dispatcher with the
fixed payload `{'check': ''}` — independent of the caller and of the
entity's attribute values — and, with a bound identity, the one request
it sends POSTs exactly that payload to `<basePath>/<id>/actions`. -/
theorem C9_check_constant_payload (e : Entity) (sess : Session) (i : String)
    (h : e.id = some i) :
    Stack.check e sess = Stack._action e sess (Value.obj [("check", Value.str "")]) ∧
    (Stack.check e sess).requests =
      [{ method := Method.POST
         url := urljoin Stack.schema.basePath [i, "actions"]
         headers := []
         body := some (Value.obj [("check", Value.str "")]) }] := by
  constructor
  · rfl
  · simp [Stack.check, Stack._action, h, pyStr]

/-- C9 witness: the check action at a concrete bound identity, with an
entity whose attribute values are nonempty to exhibit that they do not
leak into the payload. -/
theorem C9_check_constant_payload_witness :
    eC6.id = some "ID6" ∧
    (Stack.check eC6 sessC5 = Stack._action eC6 sessC5 (Value.obj [("check", Value.str "")]) ∧
    (Stack.check eC6 sessC5).requests =
      [{ method := Method.POST
         url := urljoin Stack.schema.basePath ["ID6", "actions"]
         headers := []
         body := some (Value.obj [("check", Value.str "")]) }]) :=
  ⟨rfl, C9_check_constant_payload eC6 sessC5 "ID6" rfl⟩
